import Mathlib

/-!
Shallow embedding of the flight-booking application (Django app `flight`),
translated from `flight/views.py`, `flight/amadeus.py` and `flight/models.py`.

Modelling conventions:
* Python strings are Lean `String`; `str.strip()` / `.lower()` / `.upper()`
  are implemented over the underlying character list so that concrete
  evaluations reduce in the kernel.
* Python `Decimal` values are modelled exactly by `Dec` (an integer mantissa
  with a base-10 scale); Decimal equality in the source is numeric equality,
  modelled by `Dec.eqv`.  Exotic `Decimal` input forms (exponents, NaN,
  Infinity) are not modelled; the claims only need plain numeric literals
  and non-numeric strings.
* External effects (HTTP responses, the OAuth exchange, the FX-rate fetch,
  databases) are passed in explicitly as oracles / state values.
-/

/-- Python truthiness of an optional string (`if s:`): present and non-empty. -/
def truthyStr : Option String → Bool
  | some s => s ≠ ""
  | none => false

/-- Python `str.strip()` on a character list: drop whitespace at both ends. -/
def stripChars (l : List Char) : List Char :=
  ((l.dropWhile Char.isWhitespace).reverse.dropWhile Char.isWhitespace).reverse

/-- Python `str.strip()`. -/
def pyStrip (s : String) : String :=
  String.mk (stripChars s.data)

/-- Python `str.lower()`. -/
def pyLower (s : String) : String :=
  String.mk (s.data.map Char.toLower)

/-- Python `str.upper()`. -/
def pyUpper (s : String) : String :=
  String.mk (s.data.map Char.toUpper)

/-- Numeric value of a list of ASCII digit characters (most significant first). -/
def digitsToNat (l : List Char) : Nat :=
  l.foldl (fun n c => n * 10 + (c.toNat - 48)) 0

/-- Split off a leading `+` or `-` sign, returning the sign as an integer unit. -/
def splitSign : List Char → Int × List Char
  | '-' :: r => (-1, r)
  | '+' :: r => (1, r)
  | r => (1, r)

/-- Python `int(s)` as used by `booking_page` for the `idx` parameter:
optional surrounding whitespace, optional sign, then decimal digits.
(The underscore digit grouping Python also accepts is not modelled; the
claims only exercise plain digits and non-numeric strings.) -/
def parseIntPy (s : String) : Option Int :=
  let t := stripChars s.data
  let (sgn, u) := splitSign t
  if u ≠ [] ∧ u.all Char.isDigit then some (sgn * (digitsToNat u : Int)) else none

/-- Exact decimal number: `num / 10 ^ scale`.  This is the value model of a
Python `Decimal`. -/
structure Dec where
  num : Int
  scale : Nat
deriving DecidableEq, Repr

/-- A `Dec` from an integer. -/
def Dec.ofInt (n : Int) : Dec := ⟨n, 0⟩

/-- Numeric equality of two decimals (Python `==` / `!=` on `Decimal` compares
values, not representations). -/
def Dec.eqv (a b : Dec) : Bool :=
  a.num * (10 : Int) ^ b.scale == b.num * (10 : Int) ^ a.scale

/-- Exact product of two decimals (Python `Decimal` multiplication). -/
def Dec.mul (a b : Dec) : Dec :=
  ⟨a.num * b.num, a.scale + b.scale⟩

/-- Python `Decimal.quantize(Decimal("1"))` with the default
`ROUND_HALF_EVEN`: round the value to the nearest integer, ties to even. -/
def Dec.quantizeUnit (d : Dec) : Int :=
  let p : Int := (10 : Int) ^ d.scale
  let q := d.num.fdiv p
  let r := d.num.fmod p
  if 2 * r < p then q
  else if p < 2 * r then q + 1
  else if q % 2 = 0 then q else q + 1

/-- Python `Decimal(s)` restricted to plain numeric literals: optional
surrounding whitespace, optional sign, digits with at most one decimal
point, at least one digit overall. -/
def parseDecChars (l : List Char) : Option Dec :=
  let t := stripChars l
  let (sgn, u) := splitSign t
  match u.splitOn '.' with
  | [a] =>
      if a ≠ [] ∧ a.all Char.isDigit then some ⟨sgn * (digitsToNat a : Int), 0⟩ else none
  | [a, b] =>
      if (a ≠ [] ∨ b ≠ []) ∧ a.all Char.isDigit ∧ b.all Char.isDigit then
        some ⟨sgn * ((digitsToNat a * 10 ^ b.length + digitsToNat b : Nat) : Int), b.length⟩
      else none
  | _ => none

/-- Python `Decimal(s)` on a string. -/
def parseDecimal (s : String) : Option Dec :=
  parseDecChars s.data

/-- Insert a `,` group separator after every third character of a reversed
digit list, as the format specifier `:,` does counting from the right. -/
def groupRev : List Char → List Char
  | a :: b :: c :: d :: rest => a :: b :: c :: ',' :: groupRev (d :: rest)
  | l => l

/-- Python `f"{n:,.0f}".replace(",", ".")` on an integer-valued amount:
decimal digits grouped in threes with `,`, then every `,` replaced by `.`. -/
def formatThousands (n : Int) : String :=
  let ds := Nat.toDigits 10 n.natAbs
  let grouped := (groupRev ds.reverse).reverse
  let dotted := grouped.map (fun c => if c = ',' then '.' else c)
  String.mk ((if n < 0 then ['-'] else []) ++ dotted)

/-- The hard-coded fallback FX table of `_get_rate_to_idr` (views.py). -/
def fallbackRateTable : List (String × Int) :=
  [("USD", 16000), ("EUR", 17000), ("SGD", 12000), ("MYR", 3400),
   ("THB", 450), ("AUD", 10500), ("JPY", 110)]

/-- `_get_rate_to_idr(currency)` (views.py).  The process-wide `_FX_CACHE`
entry for the currency and the outcome of the live FX fetch are passed in
explicitly: `cache = some (rate, ts)` models a cache entry, `fetched = some r`
models a successful fetch and parse of `rates.IDR`, `fetched = none` models
any exception during the fetch (the cache write is a side effect on
`_FX_CACHE` and does not affect the returned rate). -/
def getRateToIdr (currency : Option String) (cache : Option (Dec × Nat))
    (now : Nat) (fetched : Option Dec) : Dec :=
  let c := pyUpper (currency.getD "")
  if c = "" ∨ c = "IDR" then Dec.ofInt 1
  else
    let fallbackVal : Dec :=
      match fallbackRateTable.lookup c with
      | some n => Dec.ofInt n
      | none => Dec.ofInt 1
    let live : Option Dec :=
      match fetched with
      | some r => if r.num ≠ 0 then some r else none
      | none => none
    match cache with
    | some (r, ts) =>
        if now - ts < 21600 then r else live.getD fallbackVal
    | none => live.getD fallbackVal

/-- `_convert_to_idr(amount, currency)` (views.py): parse the amount as a
`Decimal` (a missing amount becomes the string `"None"`, which fails to
parse, exactly as `Decimal(str(None))` raises), multiply by the IDR rate,
quantize to a whole unit, and format with thousands separators. -/
def convertToIdr (amount : Option String) (currency : Option String)
    (cache : Option (Dec × Nat)) (now : Nat) (fetched : Option Dec) :
    Option Int × Option String :=
  match parseDecimal (amount.getD "None") with
  | none => (none, none)
  | some amt =>
      let rate := getRateToIdr currency cache now fetched
      let idr := (amt.mul rate).quantizeUnit
      (some idr, some (formatThousands idr))

/-! ## Offer analysis and filtering (`_analyze_offer`, `flight_results`,
`availability_api` in views.py) -/

/-- One flight segment, keeping the fields the analysed paths read. -/
structure Segment where
  carrierCode : Option String
  departureAt : Option String
deriving DecidableEq, Repr

/-- A provider offer, keeping the fields `_analyze_offer` and the
availability view read.  `numberOfBookableSeats`: `none` when the key is
absent, `some none` when present but not convertible by `int(...)`,
`some (some n)` when it parses to `n`. -/
structure Offer where
  numberOfBookableSeats : Option (Option Int)
  validatingAirlineCodes : List String
  itineraries : List (List Segment)
deriving DecidableEq, Repr

/-- The segment carriers collected by `_analyze_offer`: every truthy
`carrierCode` across all itineraries. -/
def offerCarriers (o : Offer) : List String :=
  ((o.itineraries.map (·.filterMap Segment.carrierCode)).flatten).filter (· ≠ "")

/-- The meta annotation `_analyze_offer` attaches to an offer. -/
structure OfferMeta where
  bookableSeats : Option Int
  validatingMismatch : Bool
deriving DecidableEq, Repr

/-- `_analyze_offer(offer)` (views.py): the seat count parsed as an integer
(`none` if absent or invalid) and the validating-carrier mismatch flag
(true iff validating carriers are declared and none of them occurs as a
segment carrier). -/
def analyzeOffer (o : Offer) : OfferMeta :=
  let seats : Option Int :=
    match o.numberOfBookableSeats with
    | some (some n) => some n
    | _ => none
  let validating := o.validatingAirlineCodes
  let carriers := offerCarriers o
  let mismatch := validating ≠ [] && validating.all (fun v => ¬ carriers.contains v)
  ⟨seats, mismatch⟩

/-- The keep-condition of the post-annotation filter loops in
`flight_results` and `availability_api`: skip an offer whose seat count is
present and `≤ 0`, and skip an offer whose mismatch flag is set. -/
def keepOffer (o : Offer) : Bool :=
  let m := analyzeOffer o
  !(match m.bookableSeats with | some n => decide (n ≤ 0) | none => false)
    && !m.validatingMismatch

/-- The filtered offer list (`filtered` in `flight_results`, `cleaned` in
`availability_api` before sorting). -/
def filterOffers (offers : List Offer) : List Offer :=
  offers.filter keepOffer

/-- The zero-results message `flight_results` stores in `context["error"]`
when filtering removes every offer. -/
def zeroResultsMsg : String :=
  "Tidak ada kursi tersedia atau penawaran valid untuk ditampilkan."

/-- Outcome of the search result post-processing in `flight_results`:
either a non-empty filtered offer list, the zero-results condition, or a
transport error (the `HTTPError` / `URLError` handlers, which set
`context["error"]` to an `HTTP ...` / `Network error: ...` string). -/
inductive SearchOutcome
  | okOffers (offers : List Offer)
  | zeroResults (msg : String)
  | transportError (msg : String)
deriving DecidableEq, Repr

/-- The success-path post-processing of `flight_results`: annotate, filter,
and report the zero-results condition when nothing is left. -/
def normalizeSearchResults (offers : List Offer) : SearchOutcome :=
  let filtered := filterOffers offers
  if filtered.isEmpty then .zeroResults zeroResultsMsg else .okOffers filtered

/-- `_first_departure_time(offer)` (views.py, `availability_api`): the
`departure.at` of the first segment of the first itinerary, or `""`. -/
def firstDepartureTime (o : Offer) : String :=
  match o.itineraries with
  | [] => ""
  | itin :: _ =>
    match itin with
    | [] => ""
    | seg :: _ => seg.departureAt.getD ""

/-- The cleaned and sorted offer list of `availability_api`: filter on the
analysis flags, then sort ascending by first departure time (Python
`list.sort` is a stable sort; `List.mergeSort` is stable too). -/
def availabilityCleaned (offers : List Offer) : List Offer :=
  (filterOffers offers).mergeSort
    (fun a b => decide (firstDepartureTime a ≤ firstDepartureTime b))

/-- `availability_api` success response: `{count, items}` built from the
cleaned list (a transport error instead yields an `{error}` body with
status 400, a separate code path). -/
structure AvailOk where
  count : Nat
  items : List Offer
deriving DecidableEq, Repr

/-- The success response of `availability_api` (items abstracted to the
offers they are built from). -/
def availabilityOk (offers : List Offer) : AvailOk :=
  let cleaned := availabilityCleaned offers
  ⟨cleaned.length, cleaned⟩

/-! ## Selection by index (`booking_page` GET in views.py) -/

/-- Outcome of the `booking_page` GET parameter/segment checks. -/
inductive SelOutcome (α : Type)
  | missingParam
  | invalidParam
  | noActiveSearch
  | notFoundOffer
  | found (offer : α) (idx : Int)
deriving DecidableEq

/-- The HTTP status `booking_page` renders with for each outcome. -/
def selStatusCode {α : Type} : SelOutcome α → Nat
  | .missingParam => 400
  | .invalidParam => 400
  | .noActiveSearch => 400
  | .notFoundOffer => 404
  | .found _ _ => 200

/-- The error message `booking_page` renders for each outcome. -/
def selMessage {α : Type} : SelOutcome α → Option String
  | .missingParam => some "Parameter idx wajib disertakan."
  | .invalidParam => some "Parameter idx tidak valid."
  | .noActiveSearch =>
      some "Tidak ada hasil pencarian aktif. Silakan cari penerbangan terlebih dahulu."
  | .notFoundOffer => some "Penawaran tidak ditemukan."
  | .found _ _ => none

/-- The selection logic of `booking_page` GET (views.py lines 447-495):
`idx` missing, `int(idx)` failing, the session lacking a truthy
`search_results.data` (an empty Python list is falsy, so `data: []` takes
the no-active-search branch), and the range check.  `searchResults = none`
models a missing/falsy `search_results` session entry or a missing `data`
key. -/
def bookingPageSelection {α : Type} (idxParam : Option String)
    (searchResults : Option (List α)) : SelOutcome α :=
  match idxParam with
  | none => .missingParam
  | some idxStr =>
    match parseIntPy idxStr with
    | none => .invalidParam
    | some idx =>
      match searchResults with
      | none => .noActiveSearch
      | some data =>
        if data.isEmpty then .noActiveSearch
        else if idx < 0 ∨ (data.length : Int) ≤ idx then .notFoundOffer
        else
          match data.get? idx.toNat with
          | some o => .found o idx
          | none => .notFoundOffer

/-! ## Credential manager (`get_access_token` in amadeus.py) -/

/-- The configuration read by `get_access_token`: the static settings/env
token overrides and the resolved client id/secret chains. -/
structure TokenEnv where
  settingsToken : Option String
  envToken : Option String
  clientId : Option String
  clientSecret : Option String
deriving DecidableEq, Repr

/-- The process-wide `_TOKEN` / `_EXPIRES_AT` pair. -/
structure TokenCache where
  tok : Option String
  expiresAt : Nat
deriving DecidableEq, Repr

/-- Result of one `get_access_token` call: the returned token, the cache
afterwards, and how many OAuth exchanges were performed (0 or 1). -/
structure TokenCallResult where
  token : Option String
  cache : TokenCache
  exchanges : Nat
deriving DecidableEq, Repr

/-- `get_access_token(force_refresh)` (amadeus.py).  `exchange` is the
outcome of the OAuth POST: `none` models any transport or parse failure
(every exception is caught and turns into a `None` return), and
`some (tk, expiresIn)` a parsed `{access_token, expires_in}` response,
with `tk = ""` standing for a falsy/absent `access_token` field. -/
def getAccessToken (env : TokenEnv) (now : Nat) (st : TokenCache)
    (exchange : Option (String × Nat)) (forceRefresh : Bool) : TokenCallResult :=
  if ¬forceRefresh ∧ truthyStr env.settingsToken then ⟨env.settingsToken, st, 0⟩
  else if ¬forceRefresh ∧ truthyStr env.envToken then ⟨env.envToken, st, 0⟩
  else if ¬forceRefresh ∧ truthyStr st.tok ∧ now < st.expiresAt then ⟨st.tok, st, 0⟩
  else if ¬truthyStr env.clientId ∨ ¬truthyStr env.clientSecret then ⟨none, st, 0⟩
  else
    match exchange with
    | some (tk, expiresIn) =>
        if tk ≠ "" then ⟨some tk, ⟨some tk, now + (expiresIn - 60)⟩, 1⟩
        else ⟨none, st, 1⟩
    | none => ⟨none, st, 1⟩

/-! ## Resilient API client (`_amadeus_request_json` in views.py) -/

/-- Outcome of one raw HTTP attempt inside the retry loop. -/
inductive AttemptOut
  | success (body : String)
  | httpErr (code : Nat) (body : String)
  | netErr (reason : String)
deriving DecidableEq, Repr

/-- What `_amadeus_request_json` surfaces to its caller. -/
inductive ReqResult
  | ok (body : String)
  | providerError (code : Nat) (body : String)
  | networkError (reason : String)
deriving DecidableEq, Repr

/-- Trace of one `_amadeus_request_json` call: the surfaced result, the
number of HTTP attempts performed, the session token afterwards, and the
forced-refresh token adopted before the second and third attempt
(`none` when that attempt was never made). -/
structure ReqTrace where
  result : ReqResult
  attempts : Nat
  sessionToken : Option String
  retryToken1 : Option (Option String)
  retryToken2 : Option (Option String)
deriving DecidableEq, Repr

/-- `_amadeus_request_json` (views.py): a loop of at most 3 attempts whose
raw outcomes are `o0 o1 o2`.  `s0` is the session-cached token before the
call; before each retry the session token is popped and replaced by the
forced-refresh result (`r1`, `r2`; `none` when the whole refresh chain
yields nothing, leaving the session entry popped).  A 401 continues the
loop; any other `HTTPError` is re-raised at once with its body read; a
`URLError` propagates at once; when the third attempt still fails with
401 the loop ends and the last error is re-raised with its body. -/
def amadeusRequestJson (o0 o1 o2 : AttemptOut)
    (s0 : Option String) (r1 r2 : Option String) : ReqTrace :=
  match o0 with
  | .success b => ⟨.ok b, 1, s0, none, none⟩
  | .netErr reason => ⟨.networkError reason, 1, s0, none, none⟩
  | .httpErr c b =>
    if c ≠ 401 then ⟨.providerError c b, 1, s0, none, none⟩
    else
      match o1 with
      | .success b1 => ⟨.ok b1, 2, r1, some r1, none⟩
      | .netErr reason => ⟨.networkError reason, 2, r1, some r1, none⟩
      | .httpErr c1 b1 =>
        if c1 ≠ 401 then ⟨.providerError c1 b1, 2, r1, some r1, none⟩
        else
          match o2 with
          | .success b2 => ⟨.ok b2, 3, r2, some r1, some r2⟩
          | .netErr reason => ⟨.networkError reason, 3, r2, some r1, some r2⟩
          | .httpErr c2 b2 => ⟨.providerError c2 b2, 3, r2, some r1, some r2⟩

/-! ## Local record creation at booking confirmation (`confirm_booking`,
views.py lines 647-675) -/

/-- Which of the three local records exist after the creation step, plus
the generated booking reference (assigned right after `Booking.objects.create`,
before the passenger and payment writes). -/
structure CreationState where
  bookingCreated : Bool
  passengerCreated : Bool
  paymentCreated : Bool
  bookingRef : Option String
deriving DecidableEq, Repr

/-- The creation step of `confirm_booking`: guarded by
`if temp and price_total and currency`, it creates `Booking(pending)`, then
`Passenger`, then `Payment(pending)` with `amount=Decimal(str(price_total))`,
all inside a bare `try/except: pass` and with no transaction wrapper.
`passengerInsertOk` models the database accepting the passenger row (it
raises, e.g., on a null name or birth date); the payment write is reached
only if the passenger write succeeded and its `Decimal` conversion of
`price_total` succeeds.  Any exception is swallowed, leaving the records
created so far in place. -/
def createLocalRecords (tempFound : Bool) (priceTotal currency : Option String)
    (passengerInsertOk : Bool) (nowSec : Nat) : CreationState :=
  if tempFound && truthyStr priceTotal && truthyStr currency then
    let ref := "BK" ++ toString nowSec
    if passengerInsertOk then
      match parseDecimal (priceTotal.getD "") with
      | some _ => ⟨true, true, true, some ref⟩
      | none => ⟨true, true, false, some ref⟩
    else ⟨true, false, false, some ref⟩
  else ⟨false, false, false, none⟩

/-- The all-or-nothing property the specification demands of the creation
step: afterwards either all three records exist or none does. -/
def CreationState.allOrNothing (s : CreationState) : Bool :=
  (s.bookingCreated && s.passengerCreated && s.paymentCreated) ||
  (!s.bookingCreated && !s.passengerCreated && !s.paymentCreated)

/-! ## Payment confirmation (`confirm_payment` in views.py, and the
`Booking`/`Payment` models of models.py) -/

/-- `Booking.status` values (models.py). -/
inductive BookStatus
  | pending
  | confirmed
  | cancelled
deriving DecidableEq, Repr

/-- `Payment.status` values (models.py). -/
inductive PayStatus
  | pending
  | paid
  | failed
deriving DecidableEq, Repr

/-- A `Payment` row (models.py): one-to-one with its booking. -/
structure PaymentRec where
  amount : Dec
  currency : String
  status : PayStatus
deriving DecidableEq, Repr

/-- A `Booking` row (models.py) together with its optional payment. -/
structure BookingRec where
  userId : Nat
  ref : String
  status : BookStatus
  payment : Option PaymentRec
deriving DecidableEq, Repr

/-- `Booking.objects.filter(booking_reference=ref, user=request.user).first()`. -/
def findBooking (db : List BookingRec) (user : Nat) (ref : String) :
    Option BookingRec :=
  db.find? (fun b => b.ref == ref && b.userId == user)

/-- Update the first element satisfying the predicate (saving the row that
`.first()` returned). -/
def updateFirst {α : Type} (p : α → Bool) (f : α → α) : List α → List α
  | [] => []
  | x :: xs => if p x then f x :: xs else x :: updateFirst p f xs

/-- The POST fields `confirm_payment` reads (each may be absent). -/
structure ConfirmReq where
  booking_reference : Option String
  status : Option String
  amount : Option String
deriving DecidableEq, Repr

/-- The possible responses of `confirm_payment`. -/
inductive PayOutcome
  | invalidAmount
  | missingRef
  | notFound
  | noPayment
  | alreadyFailed
  | okAlready
  | statusMismatch
  | amountMismatch
  | okConfirmed
  | saveFailed
deriving DecidableEq, Repr

/-- Whether a `confirm_payment` response is a success (`{"ok": True, ...}`). -/
def PayOutcome.isOk : PayOutcome → Bool
  | .okAlready => true
  | .okConfirmed => true
  | _ => false

/-- The row update of the success branch: payment set to paid, booking set
to confirmed (performed inside `transaction.atomic()`). -/
def setPaidConfirmed (p : PaymentRec) (b : BookingRec) : BookingRec :=
  { b with status := .confirmed, payment := some { p with status := .paid } }

/-- `confirm_payment` (views.py lines 1231-1277), check for check in source
order: parse the amount (`Decimal(str(amount))`, skipped when absent),
require a non-empty reference, look up the booking by reference and owner,
require a payment, reject an already-failed payment, short-circuit with
success when already paid and confirmed, require reported status `paid`,
reject an amount mismatch when an amount was supplied, and otherwise
atomically set the payment paid and the booking confirmed.  `saveOk`
models the transactional write succeeding; on failure the transaction
rolls back and a rejection is returned.  Returns the response and the
database afterwards. -/
def confirmPayment (db : List BookingRec) (user : Nat) (req : ConfirmReq)
    (saveOk : Bool) : PayOutcome × List BookingRec :=
  let amtParse : Option (Option Dec) := req.amount.map parseDecimal
  match amtParse with
  | some none => (.invalidAmount, db)
  | _ =>
    let amt : Option Dec := match amtParse with | some (some a) => some a | _ => none
    let ref := pyStrip (req.booking_reference.getD "")
    if ref = "" then (.missingRef, db)
    else
      match findBooking db user ref with
      | none => (.notFound, db)
      | some b =>
        match b.payment with
        | none => (.noPayment, db)
        | some p =>
          if p.status = .failed then (.alreadyFailed, db)
          else if p.status = .paid ∧ b.status = .confirmed then (.okAlready, db)
          else if pyLower (pyStrip (req.status.getD "")) ≠ "paid" then
            (.statusMismatch, db)
          else
            let doSave : PayOutcome × List BookingRec :=
              if saveOk then
                (.okConfirmed,
                  updateFirst (fun x => x.ref == ref && x.userId == user)
                    (fun x => setPaidConfirmed p x) db)
              else (.saveFailed, db)
            match amt with
            | some a => if ¬ Dec.eqv p.amount a then (.amountMismatch, db) else doSave
            | none => doSave

/-! ## Helper lemmas -/

/-- Updating the first match of a predicate keeps it the first match, as
long as the update preserves the predicate. -/
theorem find?_updateFirst {α : Type} (p : α → Bool) (f : α → α) (l : List α)
    (b : α) (h : l.find? p = some b) (hf : p (f b) = true) :
    (updateFirst p f l).find? p = some (f b) := by
  induction l with
  | nil => simp [List.find?] at h
  | cons x xs ih =>
    by_cases hx : p x = true
    · rw [List.find?_cons_of_pos _ hx] at h
      injection h with h
      subst h
      simp [updateFirst, hx, List.find?_cons_of_pos _ hf]
    · rw [List.find?_cons_of_neg _ hx] at h
      simp only [updateFirst, if_neg hx]
      rw [List.find?_cons_of_neg _ hx]
      exact ih h

/-! ## Claim theorems -/

/-- C3 counterexample: selecting index `0` while the session's last search
result set is the empty list does NOT yield the 404 not-found outcome the
claim states; the empty `data` list is falsy in Python, so `booking_page`
takes the no-active-search branch and renders with status 400. -/
theorem claim_C3_empty_data_is_not_404 :
    bookingPageSelection (some "0") (some ([] : List Nat))
        = SelOutcome.noActiveSearch
    ∧ selStatusCode (bookingPageSelection (some "0") (some ([] : List Nat))) = 400
    ∧ bookingPageSelection (some "0") (some ([] : List Nat))
        ≠ SelOutcome.notFoundOffer := by
  refine ⟨by decide, by decide, by decide⟩

/-- C3 (amended): requesting any numeric index while the session result set
is empty (`data: []`) yields the no-active-search outcome (400-equivalent,
"Tidak ada hasil pencarian aktif" message); a non-numeric index parameter
yields the invalid-param outcome (400-equivalent); a missing index
parameter yields the missing-param outcome (400-equivalent). -/
theorem claim_C3_selection_errors {α : Type} (sr : Option (List α))
    (s t : String) (n : Int)
    (hs : parseIntPy s = none) (ht : parseIntPy t = some n) :
    (bookingPageSelection (α := α) none sr = SelOutcome.missingParam
      ∧ selStatusCode (SelOutcome.missingParam : SelOutcome α) = 400)
    ∧ (bookingPageSelection (some s) sr = SelOutcome.invalidParam
      ∧ selStatusCode (SelOutcome.invalidParam : SelOutcome α) = 400)
    ∧ (bookingPageSelection (some t) (some ([] : List α))
        = SelOutcome.noActiveSearch
      ∧ selStatusCode (SelOutcome.noActiveSearch : SelOutcome α) = 400
      ∧ selMessage (SelOutcome.noActiveSearch : SelOutcome α) =
          some "Tidak ada hasil pencarian aktif. Silakan cari penerbangan terlebih dahulu.") := by
  refine ⟨⟨rfl, rfl⟩, ⟨?_, rfl⟩, ⟨?_, rfl, rfl⟩⟩
  · simp [bookingPageSelection, hs]
  · simp [bookingPageSelection, ht]

/-- Witness for C3 (amended) at concrete inputs. -/
theorem claim_C3_selection_errors_witness :
    parseIntPy "abc" = none ∧ parseIntPy "0" = some 0
    ∧ ((bookingPageSelection (α := Nat) none none = SelOutcome.missingParam
        ∧ selStatusCode (SelOutcome.missingParam : SelOutcome Nat) = 400)
      ∧ (bookingPageSelection (α := Nat) (some "abc") none = SelOutcome.invalidParam
        ∧ selStatusCode (SelOutcome.invalidParam : SelOutcome Nat) = 400)
      ∧ (bookingPageSelection (some "0") (some ([] : List Nat))
          = SelOutcome.noActiveSearch
        ∧ selStatusCode (SelOutcome.noActiveSearch : SelOutcome Nat) = 400
        ∧ selMessage (SelOutcome.noActiveSearch : SelOutcome Nat) =
            some "Tidak ada hasil pencarian aktif. Silakan cari penerbangan terlebih dahulu.")) :=
  ⟨by decide, by decide,
    claim_C3_selection_errors none "abc" "0" 0 (by decide) (by decide)⟩

/-- C4: the local record creation of `confirm_booking` is not all-or-nothing.
With a resolved selection, currency `"USD"`, and a `price_total` string that
is truthy but not convertible by `Decimal` (for example `"abc"` from a
malformed provider payload), the code creates the `Booking` and the
`Passenger`, then the `Payment` write raises on the `Decimal` conversion and
the exception is swallowed, leaving a `Booking` without its `Payment`. -/
theorem claim_C4_creation_not_all_or_nothing :
    createLocalRecords true (some "abc") (some "USD") true 0
        = ⟨true, true, false, some "BK0"⟩
    ∧ (createLocalRecords true (some "abc") (some "USD") true 0).allOrNothing
        = false := by
  refine ⟨by decide, by decide⟩

/-- C5 counterexample: converting amount `100` in `USD` with the fallback
rate table active (cold cache, failed live fetch) yields `1600000` formatted
`"1.600.000"` (the fallback rate is 16000 rupiah per dollar and the code
multiplies amount by rate), not the `16000` / `"16.000"` the claim states. -/
theorem claim_C5_usd_100_is_not_16000 :
    convertToIdr (some "100") (some "USD") none 0 none
        = (some 1600000, some "1.600.000")
    ∧ (convertToIdr (some "100") (some "USD") none 0 none).1 ≠ some 16000
    ∧ (convertToIdr (some "100") (some "USD") none 0 none).2 ≠ some "16.000" := by
  refine ⟨by decide, by decide, by decide⟩

/-- C5 (amended): with no live FX-rate source available and a cold cache,
converting amount `100` in `USD` yields the numeric value `1600000`
(amount times the fallback rate 16000, rounded to the nearest whole unit)
and the formatted string `"1.600.000"` (grouping separator applied, zero
decimals), at any clock value. -/
theorem claim_C5_usd_conversion_fallback (now : Nat) :
    convertToIdr (some "100") (some "USD") none now none
        = (some 1600000, some "1.600.000") := by
  simp only [convertToIdr, Option.getD_some]
  rw [show getRateToIdr (some "USD") none now none = Dec.ofInt 16000 from rfl]
  decide

/-- C6: in both the search view and the availability view, an offer whose
analysed bookable seat count is present and `≤ 0`, or whose
validating-carrier mismatch flag is true, is excluded from the result set
returned after annotation; and when filtering removes every offer the
search view reports the zero-results condition, which is distinct from a
transport error. -/
theorem claim_C6_filtering_excludes_bad_offers (offers : List Offer) (o : Offer)
    (hbad : (∃ n, (analyzeOffer o).bookableSeats = some n ∧ n ≤ 0)
      ∨ (analyzeOffer o).validatingMismatch = true) :
    o ∉ filterOffers offers
    ∧ o ∉ availabilityCleaned offers
    ∧ o ∉ (availabilityOk offers).items
    ∧ (filterOffers offers = [] →
        normalizeSearchResults offers = SearchOutcome.zeroResults zeroResultsMsg
        ∧ ∀ m, SearchOutcome.zeroResults zeroResultsMsg
            ≠ SearchOutcome.transportError m) := by
  have hk : keepOffer o = false := by
    rcases hbad with ⟨n, hs, hn⟩ | hm
    · simp [keepOffer, hs, decide_eq_true_eq, hn]
    · simp [keepOffer, hm]
  have h1 : o ∉ filterOffers offers := by
    simp [filterOffers, List.mem_filter, hk]
  have h2 : o ∉ availabilityCleaned offers := by
    intro hmem
    exact h1 ((List.mem_mergeSort).1 hmem)
  refine ⟨h1, h2, ?_, ?_⟩
  · simpa [availabilityOk] using h2
  · intro hz
    refine ⟨?_, ?_⟩
    · simp [normalizeSearchResults, hz]
    · intro m
      simp

/-- Witness for C6 at a concrete offer list: a zero-seat offer and a
mismatched-carrier offer are both dropped, leaving the zero-results
condition. -/
theorem claim_C6_filtering_witness :
    ((∃ n, (analyzeOffer ⟨some (some 0), [], []⟩).bookableSeats = some n ∧ n ≤ 0)
      ∨ (analyzeOffer ⟨some (some 0), [], []⟩).validatingMismatch = true)
    ∧ (⟨some (some 0), [], []⟩ : Offer)
        ∉ filterOffers [⟨some (some 0), [], []⟩]
    ∧ (filterOffers [(⟨some (some 0), [], []⟩ : Offer)] = [] →
        normalizeSearchResults [⟨some (some 0), [], []⟩]
          = SearchOutcome.zeroResults zeroResultsMsg
        ∧ ∀ m, SearchOutcome.zeroResults zeroResultsMsg
            ≠ SearchOutcome.transportError m) :=
  ⟨Or.inl ⟨0, by decide, by decide⟩,
    (claim_C6_filtering_excludes_bad_offers [⟨some (some 0), [], []⟩]
      ⟨some (some 0), [], []⟩ (Or.inl ⟨0, by decide, by decide⟩)).1,
    (claim_C6_filtering_excludes_bad_offers [⟨some (some 0), [], []⟩]
      ⟨some (some 0), [], []⟩ (Or.inl ⟨0, by decide, by decide⟩)).2.2.2⟩

/-- C1: `confirm_payment` is idempotent.  For every booking owned by the
requesting user whose payment is pending, a request with the matching
reference, status `paid`, and an amount equal to the recorded payment
amount succeeds and sets the payment paid and the booking confirmed; the
identical second request short-circuits with success on the already
paid/confirmed state and performs no further write (the database is
returned unchanged), so the transition is applied exactly once. -/
theorem claim_C1_confirm_payment_idempotent
    (db : List BookingRec) (user : Nat) (req : ConfirmReq) (rt : String)
    (b : BookingRec) (p : PaymentRec) (a : Dec)
    (hrt : pyStrip (req.booking_reference.getD "") = rt)
    (href : rt ≠ "")
    (hfind : findBooking db user rt = some b)
    (hpay : b.payment = some p)
    (hpending : p.status = PayStatus.pending)
    (hbstat : b.status = BookStatus.pending)
    (hstatus : pyLower (pyStrip (req.status.getD "")) = "paid")
    (hamt : req.amount.map parseDecimal = some (some a))
    (heqv : Dec.eqv p.amount a = true) :
    (confirmPayment db user req true).1 = PayOutcome.okConfirmed
    ∧ ((confirmPayment db user req true).1).isOk = true
    ∧ findBooking (confirmPayment db user req true).2 user rt
        = some (setPaidConfirmed p b)
    ∧ (setPaidConfirmed p b).status = BookStatus.confirmed
    ∧ (setPaidConfirmed p b).payment = some { p with status := PayStatus.paid }
    ∧ confirmPayment (confirmPayment db user req true).2 user req true
        = (PayOutcome.okAlready, (confirmPayment db user req true).2)
    ∧ (PayOutcome.okAlready).isOk = true := by
  have hfindL : db.find? (fun x => x.ref == rt && x.userId == user) = some b := hfind
  have hqb := List.find?_some hfindL
  have hqf : ((setPaidConfirmed p b).ref == rt
      && (setPaidConfirmed p b).userId == user) = true := by
    simpa [setPaidConfirmed] using hqb
  have h1 : confirmPayment db user req true
      = (PayOutcome.okConfirmed,
         updateFirst (fun x => x.ref == rt && x.userId == user)
           (fun x => setPaidConfirmed p x) db) := by
    simp only [confirmPayment, hamt, hrt]
    simp [href, hfind, hpay, hpending, hstatus, heqv]
  have h2 : findBooking
      (updateFirst (fun x => x.ref == rt && x.userId == user)
        (fun x => setPaidConfirmed p x) db) user rt
      = some (setPaidConfirmed p b) := by
    unfold findBooking at hfind ⊢
    exact find?_updateFirst _ _ db b hfind hqf
  have h3 : confirmPayment
      (updateFirst (fun x => x.ref == rt && x.userId == user)
        (fun x => setPaidConfirmed p x) db) user req true
      = (PayOutcome.okAlready,
         updateFirst (fun x => x.ref == rt && x.userId == user)
           (fun x => setPaidConfirmed p x) db) := by
    simp only [confirmPayment, hamt, hrt]
    rw [h2]
    simp [href, setPaidConfirmed]
  rw [h1]
  exact ⟨rfl, rfl, h2, rfl, rfl, h3, rfl⟩

/-- Witness for C1 at a concrete one-booking database. -/
theorem claim_C1_confirm_payment_idempotent_witness :
    (PaymentRec.mk ⟨500000, 0⟩ "IDR" PayStatus.pending).status = PayStatus.pending
    ∧ ((confirmPayment
        [⟨7, "BK100", BookStatus.pending,
          some ⟨⟨500000, 0⟩, "IDR", PayStatus.pending⟩⟩] 7
        ⟨some "BK100", some "paid", some "500000"⟩ true).1
          = PayOutcome.okConfirmed
      ∧ ((confirmPayment
          [⟨7, "BK100", BookStatus.pending,
            some ⟨⟨500000, 0⟩, "IDR", PayStatus.pending⟩⟩] 7
          ⟨some "BK100", some "paid", some "500000"⟩ true).1).isOk = true
      ∧ findBooking (confirmPayment
          [⟨7, "BK100", BookStatus.pending,
            some ⟨⟨500000, 0⟩, "IDR", PayStatus.pending⟩⟩] 7
          ⟨some "BK100", some "paid", some "500000"⟩ true).2 7 "BK100"
          = some (setPaidConfirmed ⟨⟨500000, 0⟩, "IDR", PayStatus.pending⟩
              ⟨7, "BK100", BookStatus.pending,
                some ⟨⟨500000, 0⟩, "IDR", PayStatus.pending⟩⟩)
      ∧ (setPaidConfirmed ⟨⟨500000, 0⟩, "IDR", PayStatus.pending⟩
          ⟨7, "BK100", BookStatus.pending,
            some ⟨⟨500000, 0⟩, "IDR", PayStatus.pending⟩⟩).status
          = BookStatus.confirmed
      ∧ (setPaidConfirmed ⟨⟨500000, 0⟩, "IDR", PayStatus.pending⟩
          ⟨7, "BK100", BookStatus.pending,
            some ⟨⟨500000, 0⟩, "IDR", PayStatus.pending⟩⟩).payment
          = some ⟨⟨500000, 0⟩, "IDR", PayStatus.paid⟩
      ∧ confirmPayment (confirmPayment
          [⟨7, "BK100", BookStatus.pending,
            some ⟨⟨500000, 0⟩, "IDR", PayStatus.pending⟩⟩] 7
          ⟨some "BK100", some "paid", some "500000"⟩ true).2 7
          ⟨some "BK100", some "paid", some "500000"⟩ true
          = (PayOutcome.okAlready, (confirmPayment
              [⟨7, "BK100", BookStatus.pending,
                some ⟨⟨500000, 0⟩, "IDR", PayStatus.pending⟩⟩] 7
              ⟨some "BK100", some "paid", some "500000"⟩ true).2)
      ∧ (PayOutcome.okAlready).isOk = true) :=
  ⟨rfl, claim_C1_confirm_payment_idempotent
    [⟨7, "BK100", BookStatus.pending, some ⟨⟨500000, 0⟩, "IDR", PayStatus.pending⟩⟩]
    7 ⟨some "BK100", some "paid", some "500000"⟩ "BK100"
    ⟨7, "BK100", BookStatus.pending, some ⟨⟨500000, 0⟩, "IDR", PayStatus.pending⟩⟩
    ⟨⟨500000, 0⟩, "IDR", PayStatus.pending⟩ ⟨500000, 0⟩
    (by decide) (by decide) (by decide) rfl rfl rfl (by decide) (by decide)
    (by decide)⟩

/-- C2: for a booking owned by the requesting user whose payment is
pending, a `confirm_payment` request whose supplied amount parses to a
value different from the recorded payment amount is rejected (with
`amountMismatch` whenever the reported status is `paid`, the only status
that reaches the amount check) and leaves the database, hence the pending
payment and booking, unchanged. -/
theorem claim_C2_amount_mismatch_rejected
    (db : List BookingRec) (user : Nat) (req : ConfirmReq) (rt : String)
    (b : BookingRec) (p : PaymentRec) (a : Dec) (saveOk : Bool)
    (hrt : pyStrip (req.booking_reference.getD "") = rt)
    (href : rt ≠ "")
    (hfind : findBooking db user rt = some b)
    (hpay : b.payment = some p)
    (hpending : p.status = PayStatus.pending)
    (hbstat : b.status = BookStatus.pending)
    (hamt : req.amount.map parseDecimal = some (some a))
    (hne : Dec.eqv p.amount a = false) :
    ((confirmPayment db user req saveOk).1).isOk = false
    ∧ (confirmPayment db user req saveOk).2 = db
    ∧ findBooking (confirmPayment db user req saveOk).2 user rt = some b
    ∧ (pyLower (pyStrip (req.status.getD "")) = "paid" →
        (confirmPayment db user req saveOk).1 = PayOutcome.amountMismatch) := by
  by_cases hst : pyLower (pyStrip (req.status.getD "")) = "paid"
  · have h1 : confirmPayment db user req saveOk = (PayOutcome.amountMismatch, db) := by
      simp only [confirmPayment, hamt, hrt]
      simp [href, hfind, hpay, hpending, hst, hne]
    rw [h1]
    exact ⟨rfl, rfl, hfind, fun _ => rfl⟩
  · have h1 : confirmPayment db user req saveOk = (PayOutcome.statusMismatch, db) := by
      simp only [confirmPayment, hamt, hrt]
      simp [href, hfind, hpay, hpending, hst]
    rw [h1]
    exact ⟨rfl, rfl, hfind, fun h => absurd h hst⟩

/-- Witness for C2: a pending payment of 500000 confirmed with amount
400000 is rejected with an amount mismatch and nothing changes. -/
theorem claim_C2_amount_mismatch_rejected_witness :
    Dec.eqv ⟨500000, 0⟩ ⟨400000, 0⟩ = false
    ∧ (((confirmPayment
        [⟨7, "BK100", BookStatus.pending,
          some ⟨⟨500000, 0⟩, "IDR", PayStatus.pending⟩⟩] 7
        ⟨some "BK100", some "paid", some "400000"⟩ true).1).isOk = false
      ∧ (confirmPayment
          [⟨7, "BK100", BookStatus.pending,
            some ⟨⟨500000, 0⟩, "IDR", PayStatus.pending⟩⟩] 7
          ⟨some "BK100", some "paid", some "400000"⟩ true).2
          = [⟨7, "BK100", BookStatus.pending,
              some ⟨⟨500000, 0⟩, "IDR", PayStatus.pending⟩⟩]
      ∧ findBooking (confirmPayment
          [⟨7, "BK100", BookStatus.pending,
            some ⟨⟨500000, 0⟩, "IDR", PayStatus.pending⟩⟩] 7
          ⟨some "BK100", some "paid", some "400000"⟩ true).2 7 "BK100"
          = some ⟨7, "BK100", BookStatus.pending,
              some ⟨⟨500000, 0⟩, "IDR", PayStatus.pending⟩⟩
      ∧ (pyLower (pyStrip ((some "paid").getD "")) = "paid" →
          (confirmPayment
            [⟨7, "BK100", BookStatus.pending,
              some ⟨⟨500000, 0⟩, "IDR", PayStatus.pending⟩⟩] 7
            ⟨some "BK100", some "paid", some "400000"⟩ true).1
            = PayOutcome.amountMismatch)) :=
  ⟨by decide, claim_C2_amount_mismatch_rejected
    [⟨7, "BK100", BookStatus.pending, some ⟨⟨500000, 0⟩, "IDR", PayStatus.pending⟩⟩]
    7 ⟨some "BK100", some "paid", some "400000"⟩ "BK100"
    ⟨7, "BK100", BookStatus.pending, some ⟨⟨500000, 0⟩, "IDR", PayStatus.pending⟩⟩
    ⟨⟨500000, 0⟩, "IDR", PayStatus.pending⟩ ⟨400000, 0⟩ true
    (by decide) (by decide) (by decide) rfl rfl rfl (by decide) (by decide)⟩

/-- C9: a failed payment is terminal.  For every booking owned by the
requesting user whose payment status is `failed`, any `confirm_payment`
request (any reported status, any amount) is rejected and the database is
returned unchanged, so the payment never becomes `paid`; whenever the
request survives the earlier syntactic checks (the amount parses or is
absent, the reference is non-empty) the rejection reason is
`alreadyFailed`. -/
theorem claim_C9_failed_payment_terminal
    (db : List BookingRec) (user : Nat) (req : ConfirmReq) (rt : String)
    (b : BookingRec) (p : PaymentRec) (saveOk : Bool)
    (hrt : pyStrip (req.booking_reference.getD "") = rt)
    (hfind : findBooking db user rt = some b)
    (hpay : b.payment = some p)
    (hfailed : p.status = PayStatus.failed) :
    ((confirmPayment db user req saveOk).1).isOk = false
    ∧ (confirmPayment db user req saveOk).2 = db
    ∧ (req.amount.map parseDecimal ≠ some none → rt ≠ "" →
        (confirmPayment db user req saveOk).1 = PayOutcome.alreadyFailed) := by
  rcases ha : req.amount.map parseDecimal with _ | op
  · by_cases hre : rt = ""
    · have h1 : confirmPayment db user req saveOk = (PayOutcome.missingRef, db) := by
        simp only [confirmPayment, ha, hrt]
        simp [hre]
      rw [h1]
      exact ⟨rfl, rfl, fun _ hne => absurd hre hne⟩
    · have h1 : confirmPayment db user req saveOk = (PayOutcome.alreadyFailed, db) := by
        simp only [confirmPayment, ha, hrt]
        simp [hre, hfind, hpay, hfailed]
      rw [h1]
      exact ⟨rfl, rfl, fun _ _ => rfl⟩
  · rcases op with _ | a
    · have h1 : confirmPayment db user req saveOk = (PayOutcome.invalidAmount, db) := by
        simp only [confirmPayment, ha]
      rw [h1]
      exact ⟨rfl, rfl, fun hcontra _ => absurd rfl hcontra⟩
    · by_cases hre : rt = ""
      · have h1 : confirmPayment db user req saveOk = (PayOutcome.missingRef, db) := by
          simp only [confirmPayment, ha, hrt]
          simp [hre]
        rw [h1]
        exact ⟨rfl, rfl, fun _ hne => absurd hre hne⟩
      · have h1 : confirmPayment db user req saveOk
            = (PayOutcome.alreadyFailed, db) := by
          simp only [confirmPayment, ha, hrt]
          simp [hre, hfind, hpay, hfailed]
        rw [h1]
        exact ⟨rfl, rfl, fun _ _ => rfl⟩

/-- Witness for C9: a failed payment stays failed under a well-formed
confirmation request. -/
theorem claim_C9_failed_payment_terminal_witness :
    (PaymentRec.mk ⟨500000, 0⟩ "IDR" PayStatus.failed).status = PayStatus.failed
    ∧ (((confirmPayment
        [⟨7, "BK100", BookStatus.pending,
          some ⟨⟨500000, 0⟩, "IDR", PayStatus.failed⟩⟩] 7
        ⟨some "BK100", some "paid", some "500000"⟩ true).1).isOk = false
      ∧ (confirmPayment
          [⟨7, "BK100", BookStatus.pending,
            some ⟨⟨500000, 0⟩, "IDR", PayStatus.failed⟩⟩] 7
          ⟨some "BK100", some "paid", some "500000"⟩ true).2
          = [⟨7, "BK100", BookStatus.pending,
              some ⟨⟨500000, 0⟩, "IDR", PayStatus.failed⟩⟩]
      ∧ ((some "500000" : Option String).map parseDecimal ≠ some none →
          ("BK100" : String) ≠ "" →
          (confirmPayment
            [⟨7, "BK100", BookStatus.pending,
              some ⟨⟨500000, 0⟩, "IDR", PayStatus.failed⟩⟩] 7
            ⟨some "BK100", some "paid", some "500000"⟩ true).1
            = PayOutcome.alreadyFailed)) :=
  ⟨rfl, claim_C9_failed_payment_terminal
    [⟨7, "BK100", BookStatus.pending, some ⟨⟨500000, 0⟩, "IDR", PayStatus.failed⟩⟩]
    7 ⟨some "BK100", some "paid", some "500000"⟩ "BK100"
    ⟨7, "BK100", BookStatus.pending, some ⟨⟨500000, 0⟩, "IDR", PayStatus.failed⟩⟩
    ⟨⟨500000, 0⟩, "IDR", PayStatus.failed⟩ true
    (by decide) (by decide) rfl rfl⟩

/-- C10: when the `confirm_payment` request omits the amount parameter,
the amount check is skipped rather than the request rejected: for a
booking owned by the requesting user with a pending payment and reported
status `paid`, the payment transitions to paid and the booking to
confirmed without any amount verification. -/
theorem claim_C10_missing_amount_skips_check
    (db : List BookingRec) (user : Nat) (req : ConfirmReq) (rt : String)
    (b : BookingRec) (p : PaymentRec)
    (hrt : pyStrip (req.booking_reference.getD "") = rt)
    (href : rt ≠ "")
    (hfind : findBooking db user rt = some b)
    (hpay : b.payment = some p)
    (hpending : p.status = PayStatus.pending)
    (hamt : req.amount = none)
    (hstatus : pyLower (pyStrip (req.status.getD "")) = "paid") :
    confirmPayment db user req true
      = (PayOutcome.okConfirmed,
         updateFirst (fun x => x.ref == rt && x.userId == user)
           (fun x => setPaidConfirmed p x) db)
    ∧ findBooking (confirmPayment db user req true).2 user rt
        = some (setPaidConfirmed p b)
    ∧ (setPaidConfirmed p b).status = BookStatus.confirmed
    ∧ (setPaidConfirmed p b).payment = some { p with status := PayStatus.paid } := by
  have hfindL : db.find? (fun x => x.ref == rt && x.userId == user) = some b := hfind
  have hqb := List.find?_some hfindL
  have hqf : ((setPaidConfirmed p b).ref == rt
      && (setPaidConfirmed p b).userId == user) = true := by
    simpa [setPaidConfirmed] using hqb
  have h1 : confirmPayment db user req true
      = (PayOutcome.okConfirmed,
         updateFirst (fun x => x.ref == rt && x.userId == user)
           (fun x => setPaidConfirmed p x) db) := by
    simp only [confirmPayment, hamt, hrt]
    simp [href, hfind, hpay, hpending, hstatus]
  refine ⟨h1, ?_, rfl, rfl⟩
  rw [h1]
  unfold findBooking at hfind ⊢
  exact find?_updateFirst _ _ db b hfind hqf

/-- Witness for C10: confirming with no amount parameter succeeds and
marks the payment paid. -/
theorem claim_C10_missing_amount_skips_check_witness :
    (ConfirmReq.mk (some "BK100") (some "paid") none).amount = none
    ∧ (confirmPayment
        [⟨7, "BK100", BookStatus.pending,
          some ⟨⟨500000, 0⟩, "IDR", PayStatus.pending⟩⟩] 7
        ⟨some "BK100", some "paid", none⟩ true
        = (PayOutcome.okConfirmed,
           updateFirst (fun x => x.ref == "BK100" && x.userId == 7)
             (fun x => setPaidConfirmed ⟨⟨500000, 0⟩, "IDR", PayStatus.pending⟩ x)
             [⟨7, "BK100", BookStatus.pending,
               some ⟨⟨500000, 0⟩, "IDR", PayStatus.pending⟩⟩])
      ∧ findBooking (confirmPayment
          [⟨7, "BK100", BookStatus.pending,
            some ⟨⟨500000, 0⟩, "IDR", PayStatus.pending⟩⟩] 7
          ⟨some "BK100", some "paid", none⟩ true).2 7 "BK100"
          = some (setPaidConfirmed ⟨⟨500000, 0⟩, "IDR", PayStatus.pending⟩
              ⟨7, "BK100", BookStatus.pending,
                some ⟨⟨500000, 0⟩, "IDR", PayStatus.pending⟩⟩)
      ∧ (setPaidConfirmed ⟨⟨500000, 0⟩, "IDR", PayStatus.pending⟩
          ⟨7, "BK100", BookStatus.pending,
            some ⟨⟨500000, 0⟩, "IDR", PayStatus.pending⟩⟩).status
          = BookStatus.confirmed
      ∧ (setPaidConfirmed ⟨⟨500000, 0⟩, "IDR", PayStatus.pending⟩
          ⟨7, "BK100", BookStatus.pending,
            some ⟨⟨500000, 0⟩, "IDR", PayStatus.pending⟩⟩).payment
          = some ⟨⟨500000, 0⟩, "IDR", PayStatus.paid⟩) :=
  ⟨rfl, claim_C10_missing_amount_skips_check
    [⟨7, "BK100", BookStatus.pending, some ⟨⟨500000, 0⟩, "IDR", PayStatus.pending⟩⟩]
    7 ⟨some "BK100", some "paid", none⟩ "BK100"
    ⟨7, "BK100", BookStatus.pending, some ⟨⟨500000, 0⟩, "IDR", PayStatus.pending⟩⟩
    ⟨⟨500000, 0⟩, "IDR", PayStatus.pending⟩
    (by decide) (by decide) (by decide) rfl rfl rfl (by decide)⟩

/-- C7: the resilient API request makes at most 3 attempts; a further
attempt happens only after a 401 (with the session token discarded and the
forced-refresh token adopted before each retry); any non-401 HTTP error is
surfaced immediately as a provider error carrying the response body; a
network-level failure is surfaced immediately and never retried. -/
theorem claim_C7_retry_policy (o0 o1 o2 : AttemptOut) (s0 r1 r2 : Option String) :
    ((amadeusRequestJson o0 o1 o2 s0 r1 r2).attempts ≤ 3)
    ∧ (2 ≤ (amadeusRequestJson o0 o1 o2 s0 r1 r2).attempts →
        ∃ b, o0 = AttemptOut.httpErr 401 b)
    ∧ ((amadeusRequestJson o0 o1 o2 s0 r1 r2).attempts = 3 →
        ∃ b, o1 = AttemptOut.httpErr 401 b)
    ∧ (∀ cc bb, o0 = AttemptOut.httpErr cc bb → cc ≠ 401 →
        amadeusRequestJson o0 o1 o2 s0 r1 r2
          = ⟨ReqResult.providerError cc bb, 1, s0, none, none⟩)
    ∧ (∀ bb cc1 bb1, o0 = AttemptOut.httpErr 401 bb →
        o1 = AttemptOut.httpErr cc1 bb1 → cc1 ≠ 401 →
        amadeusRequestJson o0 o1 o2 s0 r1 r2
          = ⟨ReqResult.providerError cc1 bb1, 2, r1, some r1, none⟩)
    ∧ (∀ reason, o0 = AttemptOut.netErr reason →
        amadeusRequestJson o0 o1 o2 s0 r1 r2
          = ⟨ReqResult.networkError reason, 1, s0, none, none⟩)
    ∧ (∀ bb reason, o0 = AttemptOut.httpErr 401 bb →
        o1 = AttemptOut.netErr reason →
        amadeusRequestJson o0 o1 o2 s0 r1 r2
          = ⟨ReqResult.networkError reason, 2, r1, some r1, none⟩)
    ∧ (2 ≤ (amadeusRequestJson o0 o1 o2 s0 r1 r2).attempts →
        (amadeusRequestJson o0 o1 o2 s0 r1 r2).retryToken1 = some r1)
    ∧ ((amadeusRequestJson o0 o1 o2 s0 r1 r2).attempts = 3 →
        (amadeusRequestJson o0 o1 o2 s0 r1 r2).retryToken2 = some r2) := by
  rcases o0 with b | ⟨c, b⟩ | r
  · simp [amadeusRequestJson]
  · by_cases hc : c = 401
    · subst hc
      rcases o1 with b1 | ⟨c1, b1⟩ | rr
      · simp [amadeusRequestJson]
      · by_cases hc1 : c1 = 401
        · subst hc1
          rcases o2 with b2 | ⟨c2, b2⟩ | rr2 <;> simp [amadeusRequestJson]
        · simp [amadeusRequestJson, hc1]
      · simp [amadeusRequestJson]
    · simp [amadeusRequestJson, hc]
  · simp [amadeusRequestJson]

/-- Witness for C7: a 401 followed by a 500 surfaces the 500 with its body
after exactly two attempts, with the refreshed token in the session. -/
theorem claim_C7_retry_policy_witness :
    (amadeusRequestJson (AttemptOut.httpErr 401 "a") (AttemptOut.httpErr 500 "b")
        (AttemptOut.success "c") none (some "t1") none).attempts ≤ 3
    ∧ amadeusRequestJson (AttemptOut.httpErr 401 "a") (AttemptOut.httpErr 500 "b")
        (AttemptOut.success "c") none (some "t1") none
        = ⟨ReqResult.providerError 500 "b", 2, some "t1", some (some "t1"), none⟩ :=
  ⟨(claim_C7_retry_policy (AttemptOut.httpErr 401 "a") (AttemptOut.httpErr 500 "b")
      (AttemptOut.success "c") none (some "t1") none).1,
    (claim_C7_retry_policy (AttemptOut.httpErr 401 "a") (AttemptOut.httpErr 500 "b")
      (AttemptOut.success "c") none (some "t1") none).2.2.2.2.1 "a" 500 "b" rfl rfl
      (by decide)⟩

/-- C8: with no static or environment token override, two `get_access_token`
calls within the cached token lifetime return the identical token with no
OAuth exchange and leave the cache unchanged; `force_refresh=true` always
performs an exchange when credentials are configured; and on any transport
or parse failure of the exchange (the `none` oracle, covering every
exception the code catches) the call returns `none` instead of raising,
leaving the cache unchanged. -/
theorem claim_C8_get_token_caching
    (env : TokenEnv) (now1 now2 : Nat) (st st2 : TokenCache)
    (ex1 ex2 ex3 : Option (String × Nat)) (t : String)
    (hset : truthyStr env.settingsToken = false)
    (henv : truthyStr env.envToken = false)
    (hcid : truthyStr env.clientId = true)
    (hsec : truthyStr env.clientSecret = true)
    (hcache : st.tok = some t) (ht : t ≠ "")
    (h1 : now1 < st.expiresAt) (h2 : now2 < st.expiresAt)
    (hmiss : st2.expiresAt ≤ now1) :
    getAccessToken env now1 st ex1 false = ⟨some t, st, 0⟩
    ∧ getAccessToken env now2 st ex2 false = ⟨some t, st, 0⟩
    ∧ (getAccessToken env now1 st ex3 true).exchanges = 1
    ∧ getAccessToken env now1 st none true = ⟨none, st, 1⟩
    ∧ getAccessToken env now1 st2 none false = ⟨none, st2, 1⟩ := by
  have hst : truthyStr (some t) = true := by simp [truthyStr, ht]
  refine ⟨?_, ?_, ?_, ?_, ?_⟩
  · simp [getAccessToken, hset, henv, hst, hcache, h1]
  · simp [getAccessToken, hset, henv, hst, hcache, h2]
  · rcases ex3 with _ | ⟨tk, ei⟩
    · simp [getAccessToken, hcid, hsec]
    · by_cases htk : tk = ""
      · simp [getAccessToken, hcid, hsec, htk]
      · simp [getAccessToken, hcid, hsec, htk]
  · simp [getAccessToken, hcid, hsec]
  · simp [getAccessToken, hset, henv, hcid, hsec, Nat.not_lt.mpr hmiss]

/-- Witness for C8 at a concrete configuration and cache. -/
theorem claim_C8_get_token_caching_witness :
    (TokenCache.mk (some "tok") 100).tok = some "tok"
    ∧ (getAccessToken ⟨none, none, some "id", some "sec"⟩ 0
          ⟨some "tok", 100⟩ none false = ⟨some "tok", ⟨some "tok", 100⟩, 0⟩
      ∧ getAccessToken ⟨none, none, some "id", some "sec"⟩ 50
          ⟨some "tok", 100⟩ (some ("u", 1799)) false
          = ⟨some "tok", ⟨some "tok", 100⟩, 0⟩
      ∧ (getAccessToken ⟨none, none, some "id", some "sec"⟩ 0
          ⟨some "tok", 100⟩ (some ("u", 1799)) true).exchanges = 1
      ∧ getAccessToken ⟨none, none, some "id", some "sec"⟩ 0
          ⟨some "tok", 100⟩ none true = ⟨none, ⟨some "tok", 100⟩, 1⟩
      ∧ getAccessToken ⟨none, none, some "id", some "sec"⟩ 0
          ⟨none, 0⟩ none false = ⟨none, ⟨none, 0⟩, 1⟩) :=
  ⟨rfl, claim_C8_get_token_caching ⟨none, none, some "id", some "sec"⟩ 0 50
    ⟨some "tok", 100⟩ ⟨none, 0⟩ none (some ("u", 1799)) (some ("u", 1799)) "tok"
    rfl rfl (by decide) (by decide) rfl (by decide) (by decide) (by decide)
    (by decide)⟩

-- Quick sanity examples (definitions evaluate in the kernel).
example : parseDecimal "100" = some ⟨100, 0⟩ := by decide
example : parseDecimal "abc" = none := by decide
example : parseIntPy "0" = some 0 := by decide
example : parseIntPy "abc" = none := by decide
example : formatThousands 1600000 = "1.600.000" := by decide
example : convertToIdr (some "100") (some "USD") none 0 none
    = (some 1600000, some "1.600.000") := by decide
